import Mathlib

/-!
Shallow embedding of the burnout-dashboard pipeline in `src/app.py`:
the feature contract (column lists and the missing-column check), the
inference adapter over an opaque classifier, the JITAI nudge rule engine,
and the high-risk CSV export. Numeric cell values are modelled as
rationals; the classifier is modelled as an opaque pure function pair
(label prediction and 3-way class-probability prediction), as the code
treats it.
-/

/-- Ordered numeric feature column names, from `NUM_FEATURES` in `src/app.py`. -/
def NUM_FEATURES : List String := [
  "total_emails_sent",
  "total_emails_received",
  "avg_email_reply_time_min",
  "total_slack_msgs_sent",
  "after_hours_msgs_count",
  "num_meetings",
  "total_meeting_hours",
  "back_to_back_meeting_blocks",
  "unique_contacts_count",
  "degree_centrality",
  "betweenness_centrality",
  "isolation_score",
  "z_after_hours_within_country",
  "z_reply_time_within_country",
  "z_meeting_load_within_country"
]

/-- Ordered categorical feature column names, from `CAT_FEATURES` in `src/app.py`. -/
def CAT_FEATURES : List String := ["role", "team", "country", "culture_cluster"]

/-- The 21 required columns checked by the safety check in `src/app.py`
(line 63): `NUM_FEATURES + CAT_FEATURES + ["employee_id", "week_start_date"]`. -/
def REQUIRED_COLUMNS : List String :=
  NUM_FEATURES ++ CAT_FEATURES ++ ["employee_id", "week_start_date"]

/-- A raw weekly-activity row with the 21 required columns: identity columns,
the 15 numeric features (as rationals), and the 4 categorical features. -/
structure RawRecord where
  employee_id : String
  week_start_date : String
  total_emails_sent : ℚ
  total_emails_received : ℚ
  avg_email_reply_time_min : ℚ
  total_slack_msgs_sent : ℚ
  after_hours_msgs_count : ℚ
  num_meetings : ℚ
  total_meeting_hours : ℚ
  back_to_back_meeting_blocks : ℚ
  unique_contacts_count : ℚ
  degree_centrality : ℚ
  betweenness_centrality : ℚ
  isolation_score : ℚ
  z_after_hours_within_country : ℚ
  z_reply_time_within_country : ℚ
  z_meeting_load_within_country : ℚ
  role : String
  team : String
  country : String
  culture_cluster : String
deriving DecidableEq

/-- A cell value of the tabular frame: numeric or categorical. -/
inductive FeatureValue where
  | num (q : ℚ)
  | cat (s : String)
deriving DecidableEq

/-- Column lookup on a raw row, modelling `df[c]` for one row: the 21 raw
columns resolve to the row's fields, every other name is absent. -/
def colValue (r : RawRecord) : String → Option FeatureValue
  | "total_emails_sent" => some (.num r.total_emails_sent)
  | "total_emails_received" => some (.num r.total_emails_received)
  | "avg_email_reply_time_min" => some (.num r.avg_email_reply_time_min)
  | "total_slack_msgs_sent" => some (.num r.total_slack_msgs_sent)
  | "after_hours_msgs_count" => some (.num r.after_hours_msgs_count)
  | "num_meetings" => some (.num r.num_meetings)
  | "total_meeting_hours" => some (.num r.total_meeting_hours)
  | "back_to_back_meeting_blocks" => some (.num r.back_to_back_meeting_blocks)
  | "unique_contacts_count" => some (.num r.unique_contacts_count)
  | "degree_centrality" => some (.num r.degree_centrality)
  | "betweenness_centrality" => some (.num r.betweenness_centrality)
  | "isolation_score" => some (.num r.isolation_score)
  | "z_after_hours_within_country" => some (.num r.z_after_hours_within_country)
  | "z_reply_time_within_country" => some (.num r.z_reply_time_within_country)
  | "z_meeting_load_within_country" => some (.num r.z_meeting_load_within_country)
  | "role" => some (.cat r.role)
  | "team" => some (.cat r.team)
  | "country" => some (.cat r.country)
  | "culture_cluster" => some (.cat r.culture_cluster)
  | "employee_id" => some (.cat r.employee_id)
  | "week_start_date" => some (.cat r.week_start_date)
  | _ => none

/-- The feature row handed to the classifier, modelling
`X = df[NUM_FEATURES + CAT_FEATURES]` (line 68): the cells of the
numeric-then-categorical columns, in feature-contract order. -/
def featureRow (r : RawRecord) : List FeatureValue :=
  (NUM_FEATURES ++ CAT_FEATURES).filterMap (colValue r)

/-- The missing-column computation of the safety check (line 63):
`[c for c in REQUIRED if c not in df.columns]`. -/
def missingCols (cols : List String) : List String :=
  REQUIRED_COLUMNS.filter (fun c => ¬ cols.contains c)

/-- The opaque pre-trained classifier, modelled as a pure function pair:
`predict` gives an integer label, `predict_proba` gives the 3 class-probability
columns (low, medium, high) the code indexes as `proba[:, 0..2]`. -/
structure Classifier where
  predictLabel : List FeatureValue → ℤ
  predictProba : List FeatureValue → ℚ × ℚ × ℚ

/-- An enriched row: a raw row plus the 4 derived fields the inference step
writes (`predicted_label`, `prob_low`, `prob_medium`, `prob_high`, lines 77-80). -/
structure Record extends RawRecord where
  predicted_label : ℤ
  prob_low : ℚ
  prob_medium : ℚ
  prob_high : ℚ
deriving DecidableEq

/-- Enrich one raw row (lines 73-80): forward its feature row to the
classifier's two operations and write the 4 derived fields. -/
def predictOne (clf : Classifier) (r : RawRecord) : Record :=
  { r with
    predicted_label := clf.predictLabel (featureRow r)
    prob_low := (clf.predictProba (featureRow r)).1
    prob_medium := (clf.predictProba (featureRow r)).2.1
    prob_high := (clf.predictProba (featureRow r)).2.2 }

/-- The inference adapter over a validated batch of rows. -/
def predictAndEnrich (clf : Classifier) (raws : List RawRecord) : List Record :=
  raws.map (predictOne clf)

/-- Re-running the inference step on an already-enriched frame: `X` again
selects only the feature columns of the base row, and the 4 derived fields
are overwritten with the classifier's outputs on that feature row. -/
def reinferOne (clf : Classifier) (r : Record) : Record :=
  { r with
    predicted_label := clf.predictLabel (featureRow r.toRawRecord)
    prob_low := (clf.predictProba (featureRow r.toRawRecord)).1
    prob_medium := (clf.predictProba (featureRow r.toRawRecord)).2.1
    prob_high := (clf.predictProba (featureRow r.toRawRecord)).2.2 }

/-- Batch re-run of the inference step on enriched rows. -/
def reinfer (clf : Classifier) (rs : List Record) : List Record :=
  rs.map (reinferOne clf)

/-- The validate-then-infer prefix of the pipeline (lines 63-80): compute the
missing columns; if any are missing, halt with the full missing list before
any inference runs; otherwise run inference on every row. -/
def pipeline (cols : List String) (raws : List RawRecord) (clf : Classifier) :
    Except (List String) (List Record) :=
  let missing := missingCols cols
  if missing.isEmpty then Except.ok (predictAndEnrich clf raws)
  else Except.error missing

/-- Boundary nudge message (line 192). -/
def boundaryMsg : String :=
  "📌 **Boundary Nudge:** Frequent after-hours activity detected. Protect one evening this week by scheduling non-urgent work into your normal hours."

/-- Meeting recovery nudge message (line 196). -/
def meetingRecoveryMsg : String :=
  " **Meeting Recovery Nudge:** Calendar load is high. Convert one 60-min meeting into 45 mins to create recovery time between meetings."

/-- Connection nudge message (line 200). -/
def connectionMsg : String :=
  " **Connection Nudge:** Collaboration appears narrow. Consider pairing with a teammate or joining a cross-functional sync to stay connected."

/-- Fallback message when no rule fired (line 204). -/
def noInterventionMsg : String :=
  " **No strong intervention needed:** Maintain breaks, healthy boundaries, and steady collaboration routines."

/-- Trigger of the boundary nudge (line 191):
`after_hours_msgs_count > 20 and prob_high > 0.35`. -/
def boundaryCond (r : Record) : Prop :=
  20 < r.after_hours_msgs_count ∧ 35 / 100 < r.prob_high

instance (r : Record) : Decidable (boundaryCond r) := by
  unfold boundaryCond; infer_instance

/-- Trigger of the meeting recovery nudge (line 195):
`back_to_back_meeting_blocks >= 3 or total_meeting_hours > 20`. -/
def meetingRecoveryCond (r : Record) : Prop :=
  3 ≤ r.back_to_back_meeting_blocks ∨ 20 < r.total_meeting_hours

instance (r : Record) : Decidable (meetingRecoveryCond r) := by
  unfold meetingRecoveryCond; infer_instance

/-- Trigger of the connection nudge (line 199):
`isolation_score > 0.75 and prob_high > 0.30`. -/
def connectionCond (r : Record) : Prop :=
  75 / 100 < r.isolation_score ∧ 30 / 100 < r.prob_high

instance (r : Record) : Decidable (connectionCond r) := by
  unfold connectionCond; infer_instance

/-- The JITAI nudge rule engine (lines 188-204): evaluate rules 1-3 in order,
appending each fired rule's message; if nothing triggered, the fallback
message alone. -/
def deriveNudges (r : Record) : List String :=
  let nudges : List String := []
  let nudges := if boundaryCond r then nudges ++ [boundaryMsg] else nudges
  let nudges := if meetingRecoveryCond r then nudges ++ [meetingRecoveryMsg] else nudges
  let nudges := if connectionCond r then nudges ++ [connectionMsg] else nudges
  if nudges.isEmpty then [noInterventionMsg] else nudges

/-- An all-zero raw row, a base point for concrete test rows. -/
def zeroRaw : RawRecord where
  employee_id := ""
  week_start_date := ""
  total_emails_sent := 0
  total_emails_received := 0
  avg_email_reply_time_min := 0
  total_slack_msgs_sent := 0
  after_hours_msgs_count := 0
  num_meetings := 0
  total_meeting_hours := 0
  back_to_back_meeting_blocks := 0
  unique_contacts_count := 0
  degree_centrality := 0
  betweenness_centrality := 0
  isolation_score := 0
  z_after_hours_within_country := 0
  z_reply_time_within_country := 0
  z_meeting_load_within_country := 0
  role := ""
  team := ""
  country := ""
  culture_cluster := ""

/-- An all-zero enriched row, a base point for concrete test rows. -/
def zeroRec : Record where
  toRawRecord := zeroRaw
  predicted_label := 0
  prob_low := 0
  prob_medium := 0
  prob_high := 0

/-- The columns of the risk table and of the downloaded high-risk CSV
(`table_cols`, lines 122-127). -/
def TABLE_COLS : List String := [
  "employee_id", "role", "team", "country", "week_start_date",
  "predicted_label", "prob_high",
  "after_hours_msgs_count", "total_meeting_hours",
  "back_to_back_meeting_blocks", "isolation_score"
]

/-- Column lookup on an enriched row: the 4 derived columns, then the raw
columns. -/
def cellValue (r : Record) : String → Option FeatureValue
  | "predicted_label" => some (.num (r.predicted_label : ℚ))
  | "prob_low" => some (.num r.prob_low)
  | "prob_medium" => some (.num r.prob_medium)
  | "prob_high" => some (.num r.prob_high)
  | c => colValue r.toRawRecord c

/-- Insert a row into a list kept in descending `prob_high` order. -/
def insertDesc (r : Record) : List Record → List Record
  | [] => [r]
  | x :: xs => if x.prob_high < r.prob_high then r :: x :: xs else x :: insertDesc r xs

/-- Sort rows by `prob_high` descending, modelling
`sort_values("prob_high", ascending=False)` (line 129). -/
def sortByProbHighDesc : List Record → List Record
  | [] => []
  | x :: xs => insertDesc x (sortByProbHighDesc xs)

/-- The risk table (line 129): the filtered frame's rows sorted by
high-risk probability, descending. -/
def riskTable (fdf : List Record) : List Record := sortByProbHighDesc fdf

/-- The exported high-risk rows (line 133): risk-table rows filtered to
`predicted_label == 2`. -/
def highRisk (fdf : List Record) : List Record :=
  (riskTable fdf).filter (fun r => r.predicted_label == 2)

/-- The downloaded CSV artifact (lines 134-139), modelled as its header
(the table columns) and one cell row per high-risk record. -/
def highRiskCSV (fdf : List Record) : List String × List (List (Option FeatureValue)) :=
  (TABLE_COLS, (highRisk fdf).map (fun r => TABLE_COLS.map (cellValue r)))

/-- A concrete classifier instance used to exercise the pipeline on
concrete inputs. -/
def constClassifier : Classifier where
  predictLabel := fun _ => 2
  predictProba := fun _ => (0, 0, 1)

/-- The high-risk concrete enriched row used on concrete export runs. -/
def highRec : Record := { zeroRec with predicted_label := 2 }

/-!  Helper lemmas: the four nudge messages are pairwise distinct, and the
rule engine's output is the ordered concatenation of the fired rules'
messages, with the fallback exactly when nothing fired. -/

lemma boundary_ne_meeting : boundaryMsg ≠ meetingRecoveryMsg := by decide

lemma boundary_ne_connection : boundaryMsg ≠ connectionMsg := by decide

lemma boundary_ne_fallback : boundaryMsg ≠ noInterventionMsg := by decide

lemma meeting_ne_connection : meetingRecoveryMsg ≠ connectionMsg := by decide

lemma meeting_ne_fallback : meetingRecoveryMsg ≠ noInterventionMsg := by decide

lemma connection_ne_fallback : connectionMsg ≠ noInterventionMsg := by decide

lemma deriveNudges_eq (r : Record) :
    deriveNudges r =
      if ¬ boundaryCond r ∧ ¬ meetingRecoveryCond r ∧ ¬ connectionCond r
      then [noInterventionMsg]
      else (if boundaryCond r then [boundaryMsg] else []) ++
           (if meetingRecoveryCond r then [meetingRecoveryMsg] else []) ++
           (if connectionCond r then [connectionMsg] else []) := by
  by_cases hb : boundaryCond r <;> by_cases hm : meetingRecoveryCond r <;>
    by_cases hc : connectionCond r <;>
    simp [deriveNudges, hb, hm, hc]

/-- C1: for every enriched record, the nudge derivation returns a non-empty
list; each of rules 1-3's messages is present exactly when its trigger
condition holds; the fallback message is present exactly when none of rules
1-3 fired and never co-occurs with any other nudge; and the list is the
fixed-order concatenation Boundary, Meeting Recovery, Connection of the
fired rules' messages (or the fallback alone). -/
theorem deriveNudges_totality_order_fallback (r : Record) :
    deriveNudges r ≠ [] ∧
    (boundaryMsg ∈ deriveNudges r ↔ boundaryCond r) ∧
    (meetingRecoveryMsg ∈ deriveNudges r ↔ meetingRecoveryCond r) ∧
    (connectionMsg ∈ deriveNudges r ↔ connectionCond r) ∧
    (noInterventionMsg ∈ deriveNudges r ↔
      ¬ boundaryCond r ∧ ¬ meetingRecoveryCond r ∧ ¬ connectionCond r) ∧
    (deriveNudges r = [noInterventionMsg] ∨ noInterventionMsg ∉ deriveNudges r) ∧
    deriveNudges r =
      (if ¬ boundaryCond r ∧ ¬ meetingRecoveryCond r ∧ ¬ connectionCond r
       then [noInterventionMsg]
       else (if boundaryCond r then [boundaryMsg] else []) ++
            (if meetingRecoveryCond r then [meetingRecoveryMsg] else []) ++
            (if connectionCond r then [connectionMsg] else [])) := by
  rw [deriveNudges_eq r]
  by_cases hb : boundaryCond r <;> by_cases hm : meetingRecoveryCond r <;>
    by_cases hc : connectionCond r <;>
    simp [hb, hm, hc, boundary_ne_meeting, boundary_ne_connection,
      boundary_ne_fallback, meeting_ne_connection, meeting_ne_fallback,
      connection_ne_fallback, boundary_ne_meeting.symm, boundary_ne_connection.symm,
      boundary_ne_fallback.symm, meeting_ne_connection.symm, meeting_ne_fallback.symm,
      connection_ne_fallback.symm]

/-- C2: the Boundary Nudge is in the derived list iff
`after_hours_msgs_count > 20` and `prob_high > 0.35`; and any record with
`after_hours_msgs_count = 25`, `prob_high = 0.40`,
`back_to_back_meeting_blocks = 0`, `total_meeting_hours = 5`,
`isolation_score = 0.1` derives exactly the Boundary Nudge. -/
theorem boundary_nudge_iff_and_scenario (r : Record) :
    (boundaryMsg ∈ deriveNudges r ↔
      20 < r.after_hours_msgs_count ∧ 35 / 100 < r.prob_high) ∧
    (r.after_hours_msgs_count = 25 → r.prob_high = 40 / 100 →
      r.back_to_back_meeting_blocks = 0 → r.total_meeting_hours = 5 →
      r.isolation_score = 1 / 10 → deriveNudges r = [boundaryMsg]) := by
  constructor
  · exact (deriveNudges_totality_order_fallback r).2.1
  · intro h1 h2 h3 h4 h5
    rw [deriveNudges_eq r]
    norm_num [boundaryCond, meetingRecoveryCond, connectionCond, h1, h2, h3, h4, h5]

/-- Witness for C2 at the concrete scenario record. -/
theorem boundary_nudge_iff_and_scenario_witness :
    deriveNudges { zeroRec with after_hours_msgs_count := 25, prob_high := 40 / 100, total_meeting_hours := 5, isolation_score := 1 / 10 } = [boundaryMsg] :=
  (boundary_nudge_iff_and_scenario _).2 rfl rfl rfl rfl rfl

/-- C3: the Meeting Recovery Nudge is in the derived list iff
`back_to_back_meeting_blocks >= 3` or `total_meeting_hours > 20`; and any
record with `after_hours_msgs_count = 5`, `total_meeting_hours = 22`,
`back_to_back_meeting_blocks = 1`, `isolation_score = 0.1`,
`prob_high = 0.1` derives exactly the Meeting Recovery Nudge. -/
theorem meeting_recovery_iff_and_scenario (r : Record) :
    (meetingRecoveryMsg ∈ deriveNudges r ↔
      3 ≤ r.back_to_back_meeting_blocks ∨ 20 < r.total_meeting_hours) ∧
    (r.after_hours_msgs_count = 5 → r.total_meeting_hours = 22 →
      r.back_to_back_meeting_blocks = 1 → r.isolation_score = 1 / 10 →
      r.prob_high = 1 / 10 → deriveNudges r = [meetingRecoveryMsg]) := by
  constructor
  · exact (deriveNudges_totality_order_fallback r).2.2.1
  · intro h1 h2 h3 h4 h5
    rw [deriveNudges_eq r]
    norm_num [boundaryCond, meetingRecoveryCond, connectionCond, h1, h2, h3, h4, h5]

/-- Witness for C3 at the concrete scenario record. -/
theorem meeting_recovery_iff_and_scenario_witness :
    deriveNudges { zeroRec with after_hours_msgs_count := 5, total_meeting_hours := 22, back_to_back_meeting_blocks := 1, isolation_score := 1 / 10, prob_high := 1 / 10 } = [meetingRecoveryMsg] :=
  (meeting_recovery_iff_and_scenario _).2 rfl rfl rfl rfl rfl

/-- C4: whenever both `isolation_score > 0.75` and `prob_high > 0.30` hold,
the Connection Nudge is in the derived list; and any record with
`after_hours_msgs_count = 0`, `total_meeting_hours = 0`,
`back_to_back_meeting_blocks = 0`, `isolation_score = 0.9`,
`prob_high = 0.5` fires the Connection Nudge. -/
theorem connection_nudge_fires (r : Record) :
    (75 / 100 < r.isolation_score → 30 / 100 < r.prob_high →
      connectionMsg ∈ deriveNudges r) ∧
    (r.after_hours_msgs_count = 0 → r.total_meeting_hours = 0 →
      r.back_to_back_meeting_blocks = 0 → r.isolation_score = 9 / 10 →
      r.prob_high = 5 / 10 → connectionMsg ∈ deriveNudges r) := by
  have hiff := (deriveNudges_totality_order_fallback r).2.2.2.1
  constructor
  · intro h1 h2
    exact hiff.mpr ⟨h1, h2⟩
  · intro h1 h2 h3 h4 h5
    refine hiff.mpr ?_
    rw [connectionCond, h4, h5]
    norm_num

/-- Witness for C4 at the concrete scenario record. -/
theorem connection_nudge_fires_witness :
    connectionMsg ∈ deriveNudges { zeroRec with isolation_score := 9 / 10, prob_high := 5 / 10 } :=
  (connection_nudge_fires _).2 rfl rfl rfl rfl rfl

/-- C9: nudge derivation reads only `after_hours_msgs_count`, `prob_high`,
`back_to_back_meeting_blocks`, `total_meeting_hours` and `isolation_score`:
two records agreeing on these five fields derive identical nudge lists. -/
theorem deriveNudges_depends_only_on_five_fields (r₁ r₂ : Record)
    (h1 : r₁.after_hours_msgs_count = r₂.after_hours_msgs_count)
    (h2 : r₁.prob_high = r₂.prob_high)
    (h3 : r₁.back_to_back_meeting_blocks = r₂.back_to_back_meeting_blocks)
    (h4 : r₁.total_meeting_hours = r₂.total_meeting_hours)
    (h5 : r₁.isolation_score = r₂.isolation_score) :
    deriveNudges r₁ = deriveNudges r₂ := by
  simp only [deriveNudges, boundaryCond, meetingRecoveryCond, connectionCond,
    h1, h2, h3, h4, h5]

/-- Witness for C9: two records differing in identity, email volume and a
probability column but agreeing on the five read fields derive the same
nudges. -/
theorem deriveNudges_depends_only_on_five_fields_witness :
    deriveNudges { zeroRec with employee_id := "e-17", total_emails_sent := 99, prob_low := 1 } = deriveNudges zeroRec :=
  deriveNudges_depends_only_on_five_fields _ _ rfl rfl rfl rfl rfl

/-- C10: the derived nudge list always has between 1 and 3 messages, each
rule's message occurs at most once, and the list has exactly one message
whenever the fallback message is present. -/
theorem deriveNudges_length_bounds (r : Record) :
    1 ≤ (deriveNudges r).length ∧ (deriveNudges r).length ≤ 3 ∧
    (deriveNudges r).count boundaryMsg ≤ 1 ∧
    (deriveNudges r).count meetingRecoveryMsg ≤ 1 ∧
    (deriveNudges r).count connectionMsg ≤ 1 ∧
    (deriveNudges r).count noInterventionMsg ≤ 1 ∧
    (noInterventionMsg ∈ deriveNudges r → (deriveNudges r).length = 1) := by
  have hnodup : (deriveNudges r).Nodup := by
    rw [deriveNudges_eq r]
    by_cases hb : boundaryCond r <;> by_cases hm : meetingRecoveryCond r <;>
      by_cases hc : connectionCond r <;>
      simp [hb, hm, hc, boundary_ne_meeting, boundary_ne_connection,
        meeting_ne_connection]
  have hcount := List.nodup_iff_count_le_one.mp hnodup
  refine ⟨?_, ?_, hcount boundaryMsg, hcount meetingRecoveryMsg,
    hcount connectionMsg, hcount noInterventionMsg, ?_⟩
  · rw [deriveNudges_eq r]
    by_cases hb : boundaryCond r <;> by_cases hm : meetingRecoveryCond r <;>
      by_cases hc : connectionCond r <;> simp [hb, hm, hc]
  · rw [deriveNudges_eq r]
    by_cases hb : boundaryCond r <;> by_cases hm : meetingRecoveryCond r <;>
      by_cases hc : connectionCond r <;> simp [hb, hm, hc]
  · intro hmem
    rcases (deriveNudges_totality_order_fallback r).2.2.2.2.2.1 with heq | hnot
    · rw [heq]; rfl
    · exact absurd hmem hnot

/-- Witness for C10: on the all-zero record the fallback is present and the
list has exactly one message. -/
theorem deriveNudges_length_bounds_witness :
    noInterventionMsg ∈ deriveNudges zeroRec ∧ (deriveNudges zeroRec).length = 1 := by
  have hmem : noInterventionMsg ∈ deriveNudges zeroRec := by
    rw [deriveNudges_eq zeroRec]
    norm_num [boundaryCond, meetingRecoveryCond, connectionCond, zeroRec, zeroRaw]
  exact ⟨hmem, (deriveNudges_length_bounds zeroRec).2.2.2.2.2.2 hmem⟩

/-- C5: when every one of the 21 required columns is present, validation
passes silently and the pipeline runs inference on all rows; the missing
list is empty exactly when all required columns are present; and for every
absent required column `c`, `c` is listed in the missing-column report and
the pipeline halts with the full report, before any inference. -/
theorem schema_validation_complete (cols : List String) (raws : List RawRecord)
    (clf : Classifier) :
    ((∀ c ∈ REQUIRED_COLUMNS, cols.contains c) →
      pipeline cols raws clf = Except.ok (predictAndEnrich clf raws)) ∧
    (missingCols cols = [] ↔ ∀ c ∈ REQUIRED_COLUMNS, cols.contains c) ∧
    (∀ c ∈ REQUIRED_COLUMNS, ¬ cols.contains c →
      c ∈ missingCols cols ∧
        pipeline cols raws clf = Except.error (missingCols cols)) := by
  have hmem : ∀ c, c ∈ missingCols cols ↔ c ∈ REQUIRED_COLUMNS ∧ ¬ cols.contains c := by
    intro c
    simp [missingCols]
  have hempty : missingCols cols = [] ↔ ∀ c ∈ REQUIRED_COLUMNS, cols.contains c := by
    rw [List.eq_nil_iff_forall_not_mem]
    constructor
    · intro h c hc
      by_contra hnc
      exact h c ((hmem c).mpr ⟨hc, by simpa using hnc⟩)
    · intro h c hc
      rcases (hmem c).mp hc with ⟨hreq, hnc⟩
      exact hnc (by simpa using h c hreq)
  refine ⟨?_, hempty, ?_⟩
  · intro hall
    have : missingCols cols = [] := hempty.mpr hall
    simp [pipeline, this]
  · intro c hreq hnc
    have hc : c ∈ missingCols cols := (hmem c).mpr ⟨hreq, by simpa using hnc⟩
    have hne : ¬ (missingCols cols).isEmpty := by
      cases h : missingCols cols with
      | nil => rw [h] at hc; cases hc
      | cons a l => simp [h]
    refine ⟨hc, ?_⟩
    simp only [pipeline]
    rw [if_neg hne]

/-- Witness for C5: with all required columns present the pipeline runs
inference; with no columns present, `role` is reported missing and the
pipeline halts with the full missing list. -/
theorem schema_validation_complete_witness :
    pipeline REQUIRED_COLUMNS [] constClassifier =
      Except.ok (predictAndEnrich constClassifier []) ∧
    ("role" ∈ missingCols [] ∧
      pipeline [] [] constClassifier = Except.error (missingCols [])) :=
  ⟨(schema_validation_complete REQUIRED_COLUMNS [] constClassifier).1 (by decide),
   (schema_validation_complete [] [] constClassifier).2.2 "role" (by decide) (by decide)⟩

/-- C6: the feature row forwarded to the classifier is exactly the 15
numeric then 4 categorical feature cells in Feature Contract order; and the
inference adapter leaves every pre-existing field of every record unchanged
while writing exactly the label-prediction output to `predicted_label` and
probability columns 0, 1, 2 to `prob_low`, `prob_medium`, `prob_high`. -/
theorem inference_adapter_forwards_and_frames (clf : Classifier)
    (raws : List RawRecord) :
    (∀ r : RawRecord, featureRow r = [
      FeatureValue.num r.total_emails_sent, FeatureValue.num r.total_emails_received,
      FeatureValue.num r.avg_email_reply_time_min, FeatureValue.num r.total_slack_msgs_sent,
      FeatureValue.num r.after_hours_msgs_count, FeatureValue.num r.num_meetings,
      FeatureValue.num r.total_meeting_hours, FeatureValue.num r.back_to_back_meeting_blocks,
      FeatureValue.num r.unique_contacts_count, FeatureValue.num r.degree_centrality,
      FeatureValue.num r.betweenness_centrality, FeatureValue.num r.isolation_score,
      FeatureValue.num r.z_after_hours_within_country, FeatureValue.num r.z_reply_time_within_country,
      FeatureValue.num r.z_meeting_load_within_country, FeatureValue.cat r.role,
      FeatureValue.cat r.team, FeatureValue.cat r.country, FeatureValue.cat r.culture_cluster]) ∧
    (predictAndEnrich clf raws).map Record.toRawRecord = raws ∧
    (predictAndEnrich clf raws).map Record.predicted_label =
      raws.map (fun r => clf.predictLabel (featureRow r)) ∧
    (predictAndEnrich clf raws).map Record.prob_low =
      raws.map (fun r => (clf.predictProba (featureRow r)).1) ∧
    (predictAndEnrich clf raws).map Record.prob_medium =
      raws.map (fun r => (clf.predictProba (featureRow r)).2.1) ∧
    (predictAndEnrich clf raws).map Record.prob_high =
      raws.map (fun r => (clf.predictProba (featureRow r)).2.2) := by
  refine ⟨fun r => rfl, ?_, ?_, ?_, ?_, ?_⟩ <;>
    induction raws with
    | nil => rfl
    | cons a l ih => simp_all [predictAndEnrich, predictOne]

/-- C7: the inference step is idempotent: re-running it on an already
enriched batch reproduces the same records, derived fields included. -/
theorem inference_idempotent (clf : Classifier) (raws : List RawRecord) :
    reinfer clf (predictAndEnrich clf raws) = predictAndEnrich clf raws := by
  simp only [reinfer, predictAndEnrich, List.map_map]
  rfl

/-- C8: every row of the exported high-risk CSV has `predicted_label = 2`,
and the CSV header contains at minimum the nine columns `employee_id`,
`role`, `team`, `country`, `predicted_label`, `prob_high`,
`after_hours_msgs_count`, `total_meeting_hours`, `isolation_score`. -/
theorem high_risk_export_label_and_columns (fdf : List Record) :
    (∀ r ∈ highRisk fdf, r.predicted_label = 2) ∧
    (∀ c ∈ ["employee_id", "role", "team", "country", "predicted_label",
        "prob_high", "after_hours_msgs_count", "total_meeting_hours",
        "isolation_score"], c ∈ (highRiskCSV fdf).1) := by
  constructor
  · intro r hr
    have := (List.mem_filter.mp hr).2
    simpa using this
  · intro c hc
    have h1 : (highRiskCSV fdf).1 = TABLE_COLS := rfl
    rw [h1]
    fin_cases hc <;> decide

/-- Witness for C8: a one-row frame whose record is labelled high-risk. -/
theorem high_risk_export_label_and_columns_witness :
    highRec.predicted_label = 2 ∧ "employee_id" ∈ (highRiskCSV [highRec]).1 := by
  have hmem : highRec ∈ highRisk [highRec] := by
    simp [highRisk, riskTable, sortByProbHighDesc, insertDesc, highRec]
  exact ⟨(high_risk_export_label_and_columns [highRec]).1 highRec hmem,
    (high_risk_export_label_and_columns [highRec]).2 "employee_id" (by decide)⟩
